import Mathlib

/-!
Shallow embedding of the handler-registry / dispatch core of a Discord bot
template (TypeScript).  Embedded components:

* `Collection` — the keyed store backing both registries (discord.js
  `Collection`, a `Map`: insert-or-overwrite `set`, `get`, `has`, `delete`).
* `ActionManager` (src/managers/ActionManager.ts) — composite-key registry of
  user-triggerable actions plus its file/folder loader.
* `EventManager` (src/managers/EventManager.ts) — identifier-keyed registry of
  lifecycle events plus its file/folder loader.
* `CustomError` (src/errors/CustomError.ts), the error taxonomy
  (src/utils/errors.ts) and the localized message table (src/utils/messages.ts).
* `Logger` (src/services/Logger.ts) — a key/value context accumulator whose
  context object is shared, by reference, with the errors it constructs; the
  reference structure is made explicit through a small heap.
* the interaction dispatcher (src/events/interactionHandler.ts).

JavaScript peculiarities that matter here are modelled explicitly: `||` chains
treat the empty string like `undefined`, truthiness checks on optional strings
accept exactly the non-empty ones, and object mutation is by reference.
-/

namespace Djs

/-! ## JavaScript truthiness helpers -/

/-- Value of the JS expression `a || b` where `a : string | undefined` and the
whole expression is used as a string: the empty string and `undefined` are
falsy, so they fall through to `b` (which is returned as-is, truthy or not). -/
def jsOrStr (a : Option String) (b : String) : String :=
  match a with
  | none => b
  | some s => if s = "" then b else s

/-- Truthiness of the JS test `!x` for `x : string | null | undefined`:
true exactly on `null`/`undefined` and the empty string. -/
def jsStrFalsy (a : Option String) : Bool :=
  match a with
  | none => true
  | some s => s = ""

/-! ## The keyed store (discord.js `Collection`, i.e. a JS `Map`)

Modelled as an association list with at most one live entry per key:
`set` overwrites in place when the key is present and appends otherwise,
mirroring `Map.prototype.set`. -/

abbrev Collection (α : Type) : Type := List (String × α)

namespace Collection

def empty {α : Type} : Collection α := []

def get {α : Type} (c : Collection α) (k : String) : Option α :=
  List.lookup k c

def has {α : Type} (c : Collection α) (k : String) : Bool :=
  (get c k).isSome

def set {α : Type} (c : Collection α) (k : String) (v : α) : Collection α :=
  match c with
  | [] => [(k, v)]
  | (k', v') :: rest => if k' = k then (k, v) :: rest else (k', v') :: set rest k v

def del {α : Type} (c : Collection α) (k : String) : Collection α :=
  match c with
  | [] => []
  | (k', v') :: rest => if k' = k then rest else (k', v') :: del rest k

end Collection

/-! ## Action records and the `ActionManager`

The `ActionType` const enum (src/typings/index.d.ts) compiles to the numbers
0–11 in declaration order, so action categories are modelled as `Nat`; any
other number is an unrecognized category reaching `getTypePrefix`'s fallback.
-/

namespace ActionType

def ChatInput : Nat := 0
def MessageContext : Nat := 1
def UserContext : Nat := 2
def StringSelectMenu : Nat := 3
def UserSelectMenu : Nat := 4
def RoleSelectMenu : Nat := 5
def MentionableSelectMenu : Nat := 6
def ChannelSelectMenu : Nat := 7
def SelectMenu : Nat := 8
def Button : Nat := 9
def Autocomplete : Nat := 10
def ModalSubmit : Nat := 11

end ActionType

/-- Behaviour of a handler callback when invoked: returns normally, throws a
`CustomError` (identified by its taxonomy code and message), or throws some
other exception. The callback body itself is outside the dispatch core. -/
inductive CallbackBehavior : Type where
  | retOk : CallbackBehavior
  | throwCustom (code : String) (msg : String) : CallbackBehavior
  | throwOther : CallbackBehavior
deriving DecidableEq, Repr

/-- Action handler record (src/typings/index.d.ts, `BaseAction`/`Action`).
`disabled` is the only enable/disable field the typings declare; `enabled` is
additionally carried because `ActionManager.load` probes a runtime property of
that name on the loaded object. Non-semantic metadata (`tags`, `usage`,
command `data`) is not consulted by the registry/loader/dispatch core and is
omitted. -/
structure Action : Type where
  identifier : String
  type : Nat
  disabled : Option Bool := none
  enabled : Option Bool := none
  callback : Option CallbackBehavior := none
deriving DecidableEq, Repr

namespace ActionManager

/-- Category-to-prefix map (`ActionManager.getTypePrefix`): a fixed if-chain
over the twelve recognized categories with the sentinel fallback "unknown". -/
def getTypePrefix (type : Nat) : String :=
  if type = ActionType.ChatInput then "chat-input"
  else if type = ActionType.MessageContext then "message-context"
  else if type = ActionType.UserContext then "user-context"
  else if type = ActionType.StringSelectMenu then "string-select-menu"
  else if type = ActionType.UserSelectMenu then "user-select-menu"
  else if type = ActionType.RoleSelectMenu then "role-select-menu"
  else if type = ActionType.MentionableSelectMenu then "mentionable-select-menu"
  else if type = ActionType.ChannelSelectMenu then "channel-select-menu"
  else if type = ActionType.SelectMenu then "select-menu"
  else if type = ActionType.Button then "button"
  else if type = ActionType.Autocomplete then "autocomplete"
  else if type = ActionType.ModalSubmit then "modal-submit"
  else "unknown"

/-- Composite key computed by `ActionManager.register`/`get`/`has`/`update`/
`remove`: prefix + "-" + identifier. -/
def key (type : Nat) (identifier : String) : String :=
  getTypePrefix type ++ "-" ++ identifier

/-- Embedded `ActionManager.register`: on a key collision with `force = false` it throws
a plain `Error` (modelled as the error-message string); otherwise it overwrites
the store. The error branch performs no mutation, so the failing call returns
the collection unchanged alongside the error. -/
def register (col : Collection Action) (action : Action) (force : Bool) :
    Collection Action × Option String :=
  let identifier := key action.type action.identifier
  if Collection.has col identifier && !force then
    (col, some ("Action with identifier " ++ identifier ++ " already exists."))
  else
    (Collection.set col identifier action, none)

/-- Embedded `ActionManager.get`: pure lookup under the composite key (`null` ↦ `none`). -/
def get (col : Collection Action) (type : Nat) (identifier : String) : Option Action :=
  Collection.get col (key type identifier)

/-- Embedded `ActionManager.has`. -/
def has (col : Collection Action) (type : Nat) (identifier : String) : Bool :=
  Collection.has col (key type identifier)

/-- Embedded `ActionManager.remove`: delete under the composite key, no-op when absent. -/
def remove (col : Collection Action) (type : Nat) (identifier : String) : Collection Action :=
  Collection.del col (key type identifier)

end ActionManager

/-! ## Error taxonomy and `CustomError`

The enum declaration file (src/typings/enum.ts) is not among the sources; its
members are modelled from their uses in src: `CustomErrorType` and
`CustomMessageType` are string enums whose values coincide (the dispatcher
indexes the message table directly with `error.code`), modelled as the string
names used at every call site. `CustomErrorSeverity` is — modelled from the
spec: §7 orders severities low/medium/high — an abstract three-valued type;
its values are JS-truthy, so `x || HIGH` keeps a present `x`. -/

inductive CustomErrorSeverity : Type where
  | LOW : CustomErrorSeverity
  | MEDIUM : CustomErrorSeverity
  | HIGH : CustomErrorSeverity
deriving DecidableEq, Repr

/-- Message block of one taxonomy entry (`message: { default, code }`); the
`code` tag points into the localized message table and is not consulted by the
`CustomError` constructor. -/
structure CustomErrorMessageSpec : Type where
  default : String
  code : String
deriving DecidableEq, Repr

/-- One entry of the error taxonomy (src/utils/errors.ts). Severity and
loggable are present on every entry of the table, so they are non-optional
here; the constructor's `?.`/`??` defenses matter only for codes that miss the
whole table. -/
structure CustomErrorPayload : Type where
  message : CustomErrorMessageSpec
  severity : CustomErrorSeverity
  loggable : Bool
deriving DecidableEq, Repr

/-- Taxonomy entry for `UNKNOWN_ERROR`, also reachable as the static fallback
`errors.UNKNOWN_ERROR` in the `CustomError` constructor. -/
def unknownErrorPayload : CustomErrorPayload :=
  { message := { default := "An unknown error occurred.", code := "UNKNOWN_ERROR" }
    severity := CustomErrorSeverity.HIGH
    loggable := true }

/-- The error taxonomy `errors` (src/utils/errors.ts): a JS object literal,
i.e. an ordered finite map from code to payload. -/
def errorsTable : List (String × CustomErrorPayload) :=
  [("UNKNOWN_ERROR", unknownErrorPayload),
   ("ACTION_IDENTIFIER_ALREADY_EXISTS",
    { message := { default := "An action with this identifier already exists."
                   code := "ACTION_IDENTIFIER_ALREADY_EXISTS" }
      severity := CustomErrorSeverity.MEDIUM, loggable := true }),
   ("ACTION_DISABLED",
    { message := { default := "This action is currently disabled."
                   code := "ACTION_DISABLED" }
      severity := CustomErrorSeverity.MEDIUM, loggable := true }),
   ("ACTION_NOT_FOUND",
    { message := { default := "The specified action was not found."
                   code := "ACTION_NOT_FOUND" }
      severity := CustomErrorSeverity.HIGH, loggable := true }),
   ("ACTION_WITHOUT_CALLBACK",
    { message := { default := "The action does not have a valid callback function."
                   code := "ACTION_WITHOUT_CALLBACK" }
      severity := CustomErrorSeverity.HIGH, loggable := true }),
   ("EVENT_IDENTIFIER_ALREADY_EXISTS",
    { message := { default := "An event with this identifier already exists."
                   code := "EVENT_IDENTIFIER_ALREADY_EXISTS" }
      severity := CustomErrorSeverity.MEDIUM, loggable := true }),
   ("EVENT_NOT_FOUND",
    { message := { default := "The specified event was not found."
                   code := "EVENT_NOT_FOUND" }
      severity := CustomErrorSeverity.HIGH, loggable := true }),
   ("EVENT_DISABLED",
    { message := { default := "This event is currently disabled."
                   code := "EVENT_DISABLED" }
      severity := CustomErrorSeverity.MEDIUM, loggable := true }),
   ("EVENT_WITHOUT_CALLBACK",
    { message := { default := "The event does not have a valid callback function."
                   code := "EVENT_WITHOUT_CALLBACK" }
      severity := CustomErrorSeverity.HIGH, loggable := true }),
   ("INTERACTION_TYPE_NOT_SUPPORTED",
    { message := { default := "The interaction type is not supported."
                   code := "INTERACTION_TYPE_NOT_SUPPORTED" }
      severity := CustomErrorSeverity.MEDIUM, loggable := true }),
   ("FILE_NOT_FOUND",
    { message := { default := "The specified file was not found."
                   code := "FILE_NOT_FOUND" }
      severity := CustomErrorSeverity.HIGH, loggable := true }),
   ("INVALID_FILE_TYPE",
    { message := { default := "The file type is invalid."
                   code := "INVALID_FILE_TYPE" }
      severity := CustomErrorSeverity.MEDIUM, loggable := true }),
   ("NO_DEFAULT_EXPORT",
    { message := { default := "The file does not export a default action."
                   code := "NO_DEFAULT_EXPORT" }
      severity := CustomErrorSeverity.HIGH, loggable := true }),
   ("FOLDER_NOT_FOUND",
    { message := { default := "The specified folder was not found."
                   code := "FOLDER_NOT_FOUND" }
      severity := CustomErrorSeverity.HIGH, loggable := true }),
   ("INVALID_FOLDER_TYPE",
    { message := { default := "The specified folder is not a valid directory."
                   code := "INVALID_FOLDER_TYPE" }
      severity := CustomErrorSeverity.MEDIUM, loggable := true })]

/-- The keyed access `errors[c]`: `none` for a code outside the table. -/
def errorsKey (code : String) : Option CustomErrorPayload :=
  List.lookup code errorsTable

/-- The `CustomError` object: code, resolved message, severity, loggable, and
the reference to the context object handed to the constructor (JS objects are
passed by reference; `contextRef` is an address into the explicit heap used by
the `Logger` model — registry-level call sites that never look at the context
again use the dummy address 0). -/
structure CustomErrorObj : Type where
  code : String
  message : String
  severity : CustomErrorSeverity
  loggable : Bool
  contextRef : Nat
deriving DecidableEq, Repr

/-- The `CustomError` constructor (src/errors/CustomError.ts):
`msg = errors[code]?.message?.default || message || errors.UNKNOWN_ERROR.message.default`,
`severity = errors[code]?.severity || HIGH`, `loggable = errors[code]?.loggable ?? true`. -/
def CustomError.make (code : String) (message : Option String) (contextRef : Nat) :
    CustomErrorObj :=
  let msg := jsOrStr ((errorsKey code).map (fun p => p.message.default))
    (jsOrStr message unknownErrorPayload.message.default)
  { code := code
    message := msg
    severity := ((errorsKey code).map (fun p => p.severity)).getD CustomErrorSeverity.HIGH
    loggable := ((errorsKey code).map (fun p => p.loggable)).getD true
    contextRef := contextRef }

/-! ## Event records and the `EventManager` registry operations

Event types are the discord.js `Events` string enum; modelled as strings. -/

structure Event : Type where
  identifier : String
  type : String
  disabled : Option Bool := none
  callback : Option CallbackBehavior := none
deriving DecidableEq, Repr

namespace EventManager

/-- Embedded `EventManager.register`: the key is the identifier alone; a collision with
`force = false` throws a `CustomError` with code `EVENT_IDENTIFIER_ALREADY_EXISTS`
(constructed through a fresh `Logger`, whose context is irrelevant here —
dummy address 0); the error branch performs no mutation. -/
def register (col : Collection Event) (event : Event) (force : Bool) :
    Collection Event × Option CustomErrorObj :=
  if Collection.has col event.identifier && !force then
    (col, some (CustomError.make "EVENT_IDENTIFIER_ALREADY_EXISTS"
      (some ("Event with identifier " ++ event.identifier ++ " already exists.")) 0))
  else
    (Collection.set col event.identifier event, none)

/-- Embedded `EventManager.get`: pure lookup by identifier. -/
def get (col : Collection Event) (identifier : String) : Option Event :=
  Collection.get col identifier

/-- Embedded `EventManager.has`. -/
def has (col : Collection Event) (identifier : String) : Bool :=
  Collection.has col identifier

/-- Embedded `EventManager.remove`: no-op when absent. -/
def remove (col : Collection Event) (identifier : String) : Collection Event :=
  Collection.del col identifier

end EventManager

/-! ## Localized message table (src/utils/messages.ts)

Every content entry in the shipped table is a plain string (never a
`BaseMessageOptions` or a function), so `getCustomMessageContent` is the
identity on all of them and message content is modelled as `String`. Locale
keys are the discord.js `Locale` string values; the table localizes French
(`"fr"`) on top of each entry's `default`. -/

structure CustomLocalizedMessage : Type where
  default : String
  locales : List (String × String)
deriving DecidableEq, Repr

/-- Message-table entry for `UNKNOWN_ERROR`, also reachable as the static
access `messages.UNKNOWN_ERROR` in the dispatcher's catch block. -/
def unknownErrorMessageEntry : CustomLocalizedMessage :=
  { default := "An unknown error occurred."
    locales := [("fr", "Une erreur inconnue s\x27est produite.")] }

/-- The localized message table `messages` (src/utils/messages.ts): a JS
object literal mapping each code to its localized message entries. -/
def messagesTable : List (String × CustomLocalizedMessage) :=
  [("UNKNOWN_ERROR", unknownErrorMessageEntry),
   ("ACTION_IDENTIFIER_ALREADY_EXISTS",
    { default := "An action with this identifier already exists."
      locales := [("fr", "Une action avec cet identifiant existe déjà.")] }),
   ("ACTION_DISABLED",
    { default := "This action is currently disabled."
      locales := [("fr", "Cette action est actuellement désactivée.")] }),
   ("ACTION_NOT_FOUND",
    { default := "The specified action was not found."
      locales := [("fr", "L\x27action spécifiée est introuvable.")] }),
   ("ACTION_WITHOUT_CALLBACK",
    { default := "The action does not have a valid callback function."
      locales := [("fr", "L\x27action n\x27a pas de fonction de rappel valide.")] }),
   ("EVENT_IDENTIFIER_ALREADY_EXISTS",
    { default := "An event with this identifier already exists."
      locales := [("fr", "Un événement avec cet identifiant existe déjà.")] }),
   ("EVENT_NOT_FOUND",
    { default := "The specified event was not found."
      locales := [("fr", "L\x27événement spécifié est introuvable.")] }),
   ("EVENT_DISABLED",
    { default := "This event is currently disabled."
      locales := [("fr", "Cet événement est actuellement désactivé.")] }),
   ("EVENT_WITHOUT_CALLBACK",
    { default := "The event does not have a valid callback function."
      locales := [("fr", "L\x27événement n\x27a pas de fonction de rappel valide.")] }),
   ("INTERACTION_TYPE_NOT_SUPPORTED",
    { default := "The interaction type is not supported."
      locales := [("fr", "Le type d\x27interaction n\x27est pas pris en charge.")] }),
   ("FILE_NOT_FOUND",
    { default := "The specified file was not found."
      locales := [("fr", "Le fichier spécifié est introuvable.")] }),
   ("INVALID_FILE_TYPE",
    { default := "The file type is invalid."
      locales := [("fr", "Le type de fichier est invalide.")] }),
   ("NO_DEFAULT_EXPORT",
    { default := "The file does not export a default action."
      locales := [("fr", "Le fichier n\x27exporte pas une action par défaut.")] }),
   ("FOLDER_NOT_FOUND",
    { default := "The specified folder was not found."
      locales := [("fr", "Le dossier spécifié est introuvable.")] }),
   ("INVALID_FOLDER_TYPE",
    { default := "The specified folder is not a valid directory."
      locales := [("fr", "Le dossier spécifié n\x27est pas un répertoire valide.")] })]

/-- The keyed access `messages[c]`: `none` for a code outside the table. -/
def messagesKey (code : String) : Option CustomLocalizedMessage :=
  List.lookup code messagesTable

/-- Message resolution of the dispatcher's catch block for a `CustomError`:
`messages[error.code][locale] || messages[error.code].default ||
messages.UNKNOWN_ERROR[locale] || messages.UNKNOWN_ERROR.default`.
`none` models the JS `TypeError` thrown by `messages[error.code][locale]`
when `error.code` is outside the message table (indexing `undefined`). -/
def resolveErrorMessage (code : String) (locale : String) : Option String :=
  match messagesKey code with
  | none => none
  | some m =>
    some (jsOrStr (List.lookup locale m.locales)
      (jsOrStr (some m.default)
        (jsOrStr (List.lookup locale unknownErrorMessageEntry.locales)
          unknownErrorMessageEntry.default)))

/-! ## The interaction dispatcher (src/events/interactionHandler.ts)

An inbound interaction is modelled by its observable runtime shape: the
boolean type predicates probed by the two classification functions, the
`commandName` and `customId` fields (always strings on the shapes that carry
them), the locale, and repliability. -/

structure Interaction : Type where
  isChatInputCommand : Bool := false
  isMessageContextMenuCommand : Bool := false
  isUserContextMenuCommand : Bool := false
  isButton : Bool := false
  isStringSelectMenu : Bool := false
  isUserSelectMenu : Bool := false
  isRoleSelectMenu : Bool := false
  isMentionableSelectMenu : Bool := false
  isChannelSelectMenu : Bool := false
  isModalSubmit : Bool := false
  isAutocomplete : Bool := false
  commandName : String := ""
  customId : String := ""
  locale : String := "en-US"
  isRepliable : Bool := true
deriving DecidableEq, Repr

/-- Embedded `getActionTypeFromInteraction`: first matching type predicate, in the
fixed source order, else `null`. -/
def getActionTypeFromInteraction (i : Interaction) : Option Nat :=
  if i.isChatInputCommand then some ActionType.ChatInput
  else if i.isMessageContextMenuCommand then some ActionType.MessageContext
  else if i.isUserContextMenuCommand then some ActionType.UserContext
  else if i.isButton then some ActionType.Button
  else if i.isStringSelectMenu then some ActionType.StringSelectMenu
  else if i.isUserSelectMenu then some ActionType.UserSelectMenu
  else if i.isRoleSelectMenu then some ActionType.RoleSelectMenu
  else if i.isMentionableSelectMenu then some ActionType.MentionableSelectMenu
  else if i.isChannelSelectMenu then some ActionType.ChannelSelectMenu
  else if i.isModalSubmit then some ActionType.ModalSubmit
  else if i.isAutocomplete then some ActionType.Autocomplete
  else none

/-- Embedded `getIdentifierFromInteraction`: probes the same predicates in the same
order; command-shaped interactions yield `commandName`, component/modal shapes
yield `customId`, else `null`. -/
def getIdentifierFromInteraction (i : Interaction) : Option String :=
  if i.isChatInputCommand then some i.commandName
  else if i.isMessageContextMenuCommand then some i.commandName
  else if i.isUserContextMenuCommand then some i.commandName
  else if i.isButton then some i.customId
  else if i.isStringSelectMenu then some i.customId
  else if i.isUserSelectMenu then some i.customId
  else if i.isRoleSelectMenu then some i.customId
  else if i.isMentionableSelectMenu then some i.customId
  else if i.isChannelSelectMenu then some i.customId
  else if i.isModalSubmit then some i.customId
  else if i.isAutocomplete then some i.commandName
  else none

/-- What the `try` block throws: a `CustomError` (from the dispatcher's own
guards or a callback) or any other exception raised by the callback. -/
inductive Thrown : Type where
  | customErr (e : CustomErrorObj) : Thrown
  | otherErr : Thrown
deriving DecidableEq, Repr

/-- Steps 3–6 of the `try` block, after a non-falsy identifier was extracted:
registry lookup, the `!action` / `action?.disabled` / `!action.callback`
guards in source order, then callback invocation. The second component records
whether the action's callback was invoked. Dispatcher errors are constructed
through `logger.error`; the logger context plays no role in these claims, so
the dummy context address 0 stands for it. -/
def dispatchResolve (col : Collection Action) (type : Nat) (identifier : String) :
    Except Thrown Unit × Bool :=
  match ActionManager.get col type identifier with
  | none =>
    (Except.error (Thrown.customErr (CustomError.make "ACTION_NOT_FOUND"
      (some ("Action " ++ identifier ++ " of type " ++ toString type ++ " not found")) 0)),
     false)
  | some action =>
    if action.disabled.getD false then
      (Except.error (Thrown.customErr (CustomError.make "ACTION_DISABLED"
        (some ("Action " ++ identifier ++ " of type " ++ toString type ++ " is disabled")) 0)),
       false)
    else
      match action.callback with
      | none =>
        (Except.error (Thrown.customErr (CustomError.make "ACTION_WITHOUT_CALLBACK"
          (some ("Action " ++ identifier ++ " of type " ++ toString type ++
            " has no callback defined")) 0)),
         false)
      | some CallbackBehavior.retOk => (Except.ok (), true)
      | some (CallbackBehavior.throwCustom c m) =>
        (Except.error (Thrown.customErr (CustomError.make c (some m) 0)), true)
      | some CallbackBehavior.throwOther => (Except.error Thrown.otherErr, true)

/-- The whole `try` block: classification (step 1, `INTERACTION_TYPE_NOT_SUPPORTED`
when no predicate matches), identifier extraction with the JS-falsy guard
`if (!identifier)` (step 2, `ACTION_NOT_FOUND`), then `dispatchResolve`. -/
def dispatchCore (col : Collection Action) (i : Interaction) :
    Except Thrown Unit × Bool :=
  match getActionTypeFromInteraction i with
  | none =>
    (Except.error (Thrown.customErr (CustomError.make "INTERACTION_TYPE_NOT_SUPPORTED"
      (some "Interaction type is not supported") 0)),
     false)
  | some type =>
    let identifier := getIdentifierFromInteraction i
    if jsStrFalsy identifier then
      (Except.error (Thrown.customErr (CustomError.make "ACTION_NOT_FOUND"
        (some ("No identifier found for interaction type " ++ toString type)) 0)),
       false)
    else
      dispatchResolve col type (identifier.getD "")

/-- Observable outcome of one run of the interaction handler's callback. -/
inductive Outcome : Type where
  | ok : Outcome
  | replied (content : String) : Outcome
  | dropped : Outcome
  | crashed : Outcome
deriving DecidableEq, Repr

/-- The full event callback of src/events/interactionHandler.ts: the `try`
block (`dispatchCore`) under the catch-all handler, which translates a
`CustomError` through the four-step message chain (keyed by `error.code`) and
any other exception through the `UNKNOWN_ERROR` chain, then replies
ephemerally when the interaction is repliable and otherwise drops the error.
`Outcome.crashed` marks the only uncaught path: the catch block itself
indexing the message table with a code it does not contain. -/
def interactionHandler (col : Collection Action) (i : Interaction) :
    Outcome × Bool :=
  match dispatchCore col i with
  | (Except.ok _, inv) => (Outcome.ok, inv)
  | (Except.error (Thrown.customErr e), inv) =>
    match resolveErrorMessage e.code i.locale with
    | none => (Outcome.crashed, inv)
    | some content =>
      ((if i.isRepliable then Outcome.replied content else Outcome.dropped), inv)
  | (Except.error Thrown.otherErr, inv) =>
    let content := jsOrStr (List.lookup i.locale unknownErrorMessageEntry.locales)
      unknownErrorMessageEntry.default
    ((if i.isRepliable then Outcome.replied content else Outcome.dropped), inv)

/-! ## The context `Logger` (src/services/Logger.ts)

A `Logger` holds a reference to a plain JS object of diagnostic key/value
pairs. Because `CustomError` receives that object by reference (not a copy),
the reference structure is modelled with an explicit heap of context objects:
a context object is a cell, a reference is its index. `addContext` mutates the
cell in place (`this.context[key] = value`); `setContext` allocates a fresh
object (`this.context = { ...this.context, ...context }`) and rebinds the
logger, leaving the old cell untouched. Context values are modelled as
strings (they are opaque to every embedded operation). -/

abbrev Ctx := Collection String

abbrev Heap := List Ctx

def Heap.read (h : Heap) (r : Nat) : Ctx := h.getD r []

def Heap.write (h : Heap) (r : Nat) (c : Ctx) : Heap := h.set r c

def Heap.alloc (h : Heap) (c : Ctx) : Nat × Heap := (h.length, h ++ [c])

/-- JS object spread `{ ...a, ...b }`: the entries of `a` in order, overridden
in place or extended by the entries of `b`. -/
def spreadMerge (a b : Ctx) : Ctx :=
  b.foldl (fun acc kv => Collection.set acc kv.1 kv.2) a

/-- A `Logger` instance: the reference to its current context object. -/
structure LoggerSt : Type where
  ctxRef : Nat
deriving DecidableEq, Repr

namespace Logger

/-- The constructor `new Logger(context)`: the passed object literal is fresh,
so it is a fresh heap cell. -/
def new (init : Ctx) (h : Heap) : LoggerSt × Heap :=
  let a := Heap.alloc h init
  (⟨a.1⟩, a.2)

/-- Embedded `Logger.addContext`: in-place mutation `this.context[key] = value`. -/
def addContext (l : LoggerSt) (k v : String) (h : Heap) : Heap :=
  Heap.write h l.ctxRef (Collection.set (Heap.read h l.ctxRef) k v)

/-- Embedded `Logger.setContext`: `this.context = { ...this.context, ...context }`
allocates a fresh object and rebinds the logger to it. -/
def setContext (l : LoggerSt) (c : Ctx) (h : Heap) : LoggerSt × Heap :=
  let a := Heap.alloc h (spreadMerge (Heap.read h l.ctxRef) c)
  (⟨a.1⟩, a.2)

/-- Embedded `Logger.getContext`: returns a copy `{ ...this.context }` — a value, not a
reference. -/
def getContext (l : LoggerSt) (h : Heap) : Ctx := Heap.read h l.ctxRef

/-- Embedded `Logger.error`: `new CustomError(code, message, this.context)` — the
constructed error carries the logger's context object itself, i.e. the
reference, not a copy. -/
def error (l : LoggerSt) (code : String) (message : Option String) : CustomErrorObj :=
  CustomError.make code message l.ctxRef

end Logger

/-- The context an error exposes, read through its stored reference. -/
def CustomErrorObj.contextAt (e : CustomErrorObj) (h : Heap) : Ctx :=
  Heap.read h e.contextRef

/-! ## Directory trees and the folder loaders

A directory tree is modelled by what the traversal observes through the
file-system boundary (§6 of the design: existence, file/directory stat,
listing, dynamic import): each file node carries its name, the result of
`path.extname` on its path, and its default export (`none` when the imported
module has none); `special` is an entry that is neither a regular file nor a
directory and is skipped. The root-level existence/directory checks are the
caller's hard failures and precede the traversal, which is what is embedded
here. -/

inductive FsEntry (α : Type) : Type where
  | file (name : String) (ext : String) (defaultExport : Option α) : FsEntry α
  | dir (name : String) (entries : List (FsEntry α)) : FsEntry α
  | special (name : String) : FsEntry α
deriving Repr

/-- Failure record collected by `ActionManager.loadFolder`:
`{ message, path }`. -/
structure ActionLoadFailure : Type where
  message : String
  path : String
deriving DecidableEq, Repr

/-- Failure record collected by `EventManager.loadFolder`: `{ error, path }`. -/
structure EventLoadFailure : Type where
  error : CustomErrorObj
  path : String
deriving DecidableEq, Repr

/-- Embedded `ActionManager.load` on an existing regular file (the two stat guards are
discharged by the tree shape): extension check, default-export check, then the
disabled guard `typeof action.enabled === 'boolean' && !action.enabled` —
which probes a property named `enabled`, not the `disabled` flag declared by
the typings — and finally `register`. On error no mutation happened. -/
def actionLoadFile (col : Collection Action) (path ext : String)
    (defaultExport : Option Action) (force : Bool) :
    Collection Action × Option String :=
  if ext ≠ ".js" ∧ ext ≠ ".ts" then
    (col, some ("File " ++ path ++ " is not a valid action file (must end with .js or .ts)."))
  else
    match defaultExport with
    | none => (col, some ("File " ++ path ++ " does not export a default action."))
    | some action =>
      if (match action.enabled with | some b => !b | none => false) then
        (col, some ("Action in " ++ path ++ " is disabled."))
      else
        ActionManager.register col action force

/-- Embedded `EventManager.load` on an existing regular file: extension check,
default-export check, the disabled guard `if (event.disabled)`, then
`register`. -/
def eventLoadFile (col : Collection Event) (path ext : String)
    (defaultExport : Option Event) (force : Bool) :
    Collection Event × Option CustomErrorObj :=
  if ext ≠ ".js" ∧ ext ≠ ".ts" then
    (col, some (CustomError.make "INVALID_FILE_TYPE"
      (some ("File " ++ path ++ " is not a valid JavaScript or TypeScript file.")) 0))
  else
    match defaultExport with
    | none => (col, some (CustomError.make "NO_DEFAULT_EXPORT"
      (some ("File " ++ path ++ " does not export a default event.")) 0))
    | some event =>
      if event.disabled.getD false then
        (col, some (CustomError.make "EVENT_DISABLED"
          (some ("Event " ++ event.identifier ++ " is disabled.")) 0))
      else
        EventManager.register col event force

/-- Embedded `ActionManager.loadFolder` over the listed entries of a validated
directory: directories recurse when `recursive` — but the source discards the
recursive call's returned failure list (`await this.loadFolder(...)` without
capturing it), so only the collection mutations survive; files are loaded with
per-file failures collected as `{ message, path }`; other entries are
skipped. -/
def actionLoadFolder (col : Collection Action) (path : String)
    (entries : List (FsEntry Action)) (recursive force : Bool) :
    Collection Action × List ActionLoadFailure :=
  match entries with
  | [] => (col, [])
  | FsEntry.dir name sub :: rest =>
    if recursive then
      let r1 := actionLoadFolder col (path ++ "/" ++ name) sub recursive force
      let r2 := actionLoadFolder r1.1 path rest recursive force
      (r2.1, r2.2)
    else
      actionLoadFolder col path rest recursive force
  | FsEntry.file name ext de :: rest =>
    let r := actionLoadFile col (path ++ "/" ++ name) ext de force
    let r2 := actionLoadFolder r.1 path rest recursive force
    match r.2 with
    | none => (r2.1, r2.2)
    | some msg => (r2.1, { message := msg, path := path ++ "/" ++ name } :: r2.2)
  | FsEntry.special _ :: rest =>
    actionLoadFolder col path rest recursive force

/-- Embedded `EventManager.loadFolder` over the listed entries of a validated
directory: identical traversal, except that the failures of a recursive call
are concatenated into the caller's list
(`failedFiles.push(...subFailedFiles)`). -/
def eventLoadFolder (col : Collection Event) (path : String)
    (entries : List (FsEntry Event)) (recursive force : Bool) :
    Collection Event × List EventLoadFailure :=
  match entries with
  | [] => (col, [])
  | FsEntry.dir name sub :: rest =>
    if recursive then
      let r1 := eventLoadFolder col (path ++ "/" ++ name) sub recursive force
      let r2 := eventLoadFolder r1.1 path rest recursive force
      (r2.1, r1.2 ++ r2.2)
    else
      eventLoadFolder col path rest recursive force
  | FsEntry.file name ext de :: rest =>
    let r := eventLoadFile col (path ++ "/" ++ name) ext de force
    let r2 := eventLoadFolder r.1 path rest recursive force
    match r.2 with
    | none => (r2.1, r2.2)
    | some err => (r2.1, { error := err, path := path ++ "/" ++ name } :: r2.2)
  | FsEntry.special _ :: rest =>
    eventLoadFolder col path rest recursive force

/-! ## Basic lemmas about the keyed store and the JS helpers -/

namespace Collection

theorem get_set_self {α : Type} (c : Collection α) (k : String) (v : α) :
    get (set c k v) k = some v := by
  induction c with
  | nil => simp [get, set]
  | cons hd tl ih =>
    obtain ⟨k', v'⟩ := hd
    by_cases h : k' = k
    · subst h
      simp [get, set]
    · simp only [set, if_neg h, get, List.lookup]
      rw [show (k == k') = false from beq_false_of_ne (fun hh => h hh.symm)]
      exact ih

theorem get_set_other {α : Type} (c : Collection α) (k k₂ : String) (v : α)
    (h : k₂ ≠ k) : get (set c k v) k₂ = get c k₂ := by
  induction c with
  | nil => simp [get, set, List.lookup, beq_false_of_ne h]
  | cons hd tl ih =>
    obtain ⟨k', v'⟩ := hd
    by_cases hk : k' = k
    · subst hk
      simp [get, set, List.lookup, beq_false_of_ne h]
    · simp only [set, if_neg hk, get, List.lookup]
      cases hbe : (k₂ == k') with
      | true => rfl
      | false => exact ih

theorem has_set_self {α : Type} (c : Collection α) (k : String) (v : α) :
    has (set c k v) k = true := by
  simp [has, get_set_self]

end Collection

theorem jsOrStr_ne_of_ne (a : Option String) (b : String) (hb : b ≠ "") :
    jsOrStr a b ≠ "" := by
  cases a with
  | none => exact hb
  | some s =>
    by_cases hs : s = ""
    · simp [jsOrStr, hs, hb]
    · simp [jsOrStr, hs]

theorem jsOrStr_some_of_ne (b : String) (r : String) (hb : b ≠ "") :
    jsOrStr (some b) r = b := by
  simp [jsOrStr, hb]

theorem String.append_right_cancel (s₁ s₂ t : String) (h : s₁ ++ t = s₂ ++ t) :
    s₁ = s₂ := by
  have hd : s₁.data ++ t.data = s₂.data ++ t.data := by
    have := congrArg String.data h
    simpa using this
  exact String.ext (List.append_cancel_right hd)

theorem getTypePrefix_injOn (t₁ t₂ : Nat) (h₁ : t₁ < 12) (h₂ : t₂ < 12)
    (hne : t₁ ≠ t₂) : ActionManager.getTypePrefix t₁ ≠ ActionManager.getTypePrefix t₂ := by
  simp only [ ActionManager.getTypePrefix, ActionType.ChatInput, ActionType.MessageContext,
    ActionType.UserContext, ActionType.StringSelectMenu, ActionType.UserSelectMenu,
    ActionType.RoleSelectMenu, ActionType.MentionableSelectMenu, ActionType.ChannelSelectMenu,
    ActionType.SelectMenu, ActionType.Button, ActionType.Autocomplete, ActionType.ModalSubmit]
  interval_cases t₁ <;> interval_cases t₂ <;> simp_all

theorem ActionManager.key_injOn (t₁ t₂ : Nat) (id : String) (h₁ : t₁ < 12)
    (h₂ : t₂ < 12) (hne : t₁ ≠ t₂) :
    ActionManager.key t₁ id ≠ ActionManager.key t₂ id := by
  intro h
  apply getTypePrefix_injOn t₁ t₂ h₁ h₂ hne
  have h' : ActionManager.getTypePrefix t₁ ++ ("-" ++ id) =
      ActionManager.getTypePrefix t₂ ++ ("-" ++ id) := by
    simpa [ActionManager.key, String.append_assoc] using h
  exact String.append_right_cancel _ _ _ h'

theorem lookup_prop {β : Type} (P : β → Prop) (tbl : List (String × β))
    (htbl : ∀ kv ∈ tbl, P kv.2) (code : String) (m : β)
    (h : List.lookup code tbl = some m) : P m := by
  induction tbl with
  | nil => simp [List.lookup] at h
  | cons hd tl ih =>
    obtain ⟨k, v⟩ := hd
    rw [List.lookup] at h
    cases hbe : (code == k) with
    | true =>
      rw [hbe] at h
      cases h
      exact htbl (k, m) (by simp)
    | false =>
      rw [hbe] at h
      exact ih (fun kv hkv => htbl kv (List.mem_cons_of_mem _ hkv)) h

theorem lookup_isSome_congr {β γ : Type} :
    ∀ (t₁ : List (String × β)) (t₂ : List (String × γ)),
      t₁.map Prod.fst = t₂.map Prod.fst →
      ∀ code, (List.lookup code t₁).isSome = (List.lookup code t₂).isSome := by
  intro t₁
  induction t₁ with
  | nil =>
    intro t₂ hk code
    cases t₂ with
    | nil => rfl
    | cons hd tl => exact absurd hk (by simp)
  | cons hd tl ih =>
    intro t₂ hk code
    cases t₂ with
    | nil => exact absurd hk (by simp)
    | cons hd₂ tl₂ =>
      obtain ⟨k₁, v₁⟩ := hd
      obtain ⟨k₂, v₂⟩ := hd₂
      simp only [List.map, List.cons.injEq] at hk
      obtain ⟨hfst, hrest⟩ := hk
      subst hfst
      rw [List.lookup, List.lookup]
      cases hbe : (code == k₁) with
      | true => rfl
      | false => exact ih tl₂ hrest code

/-- Every error code present in the taxonomy table is present in the localized
message table: the two `Record`s are keyed by the same fifteen names. -/
theorem messagesKey_of_errorsKey (code : String) (h : (errorsKey code).isSome = true) :
    (messagesKey code).isSome = true := by
  have hk : errorsTable.map Prod.fst = messagesTable.map Prod.fst := by decide
  rw [messagesKey, ← lookup_isSome_congr errorsTable messagesTable hk code]
  exact h

theorem messagesKey_default_ne_empty (code : String) (m : CustomLocalizedMessage)
    (h : messagesKey code = some m) : m.default ≠ "" :=
  lookup_prop (fun x => x.default ≠ "") messagesTable (by decide) code m h

theorem errorsKey_default_ne_empty (code : String) (p : CustomErrorPayload)
    (h : errorsKey code = some p) : p.message.default ≠ "" :=
  lookup_prop (fun x => x.message.default ≠ "") errorsTable (by decide) code p h

theorem Heap.read_write_self (h : Heap) (r : Nat) (c : Ctx) (hr : r < h.length) :
    Heap.read (Heap.write h r c) r = c := by
  simp [Heap.read, Heap.write, List.getD, List.getElem?_set_self, hr]

theorem Heap.read_append (h : Heap) (c : Ctx) (r : Nat) (hr : r < h.length) :
    Heap.read (h ++ [c]) r = Heap.read h r := by
  simp [Heap.read, List.getD, List.getElem?_append, hr]

/-- Resolution through the catch block's chain always yields a non-empty
message for any code the message table covers. -/
theorem resolveErrorMessage_covered (code locale : String) (m : CustomLocalizedMessage)
    (hm : messagesKey code = some m) :
    ∃ s, resolveErrorMessage code locale = some s ∧ s ≠ "" := by
  have hdef : m.default ≠ "" := messagesKey_default_ne_empty code m hm
  have hres : resolveErrorMessage code locale =
      some (jsOrStr (List.lookup locale m.locales)
        (jsOrStr (some m.default)
          (jsOrStr (List.lookup locale unknownErrorMessageEntry.locales)
            unknownErrorMessageEntry.default))) := by
    unfold resolveErrorMessage
    rw [hm]
  refine ⟨_, hres, ?_⟩
  apply jsOrStr_ne_of_ne
  rw [jsOrStr_some_of_ne _ _ hdef]
  exact hdef

theorem actionRegister_free (col : Collection Action) (a : Action)
    (f : Bool) (h : Collection.has col (ActionManager.key a.type a.identifier) = false) :
    ActionManager.register col a f =
      (Collection.set col (ActionManager.key a.type a.identifier) a, none) := by
  simp [ActionManager.register, h]

theorem actionRegister_clash (col : Collection Action) (a : Action)
    (h : Collection.has col (ActionManager.key a.type a.identifier) = true) :
    ActionManager.register col a false =
      (col, some ("Action with identifier " ++
        ActionManager.key a.type a.identifier ++ " already exists.")) := by
  simp [ActionManager.register, h]

theorem actionRegister_forced (col : Collection Action) (a : Action) :
    ActionManager.register col a true =
      (Collection.set col (ActionManager.key a.type a.identifier) a, none) := by
  simp [ActionManager.register]

theorem eventRegister_free (col : Collection Event) (e : Event)
    (f : Bool) (h : Collection.has col e.identifier = false) :
    EventManager.register col e f = (Collection.set col e.identifier e, none) := by
  simp [EventManager.register, h]

theorem eventRegister_clash (col : Collection Event) (e : Event)
    (h : Collection.has col e.identifier = true) :
    EventManager.register col e false =
      (col, some (CustomError.make "EVENT_IDENTIFIER_ALREADY_EXISTS"
        (some ("Event with identifier " ++ e.identifier ++ " already exists.")) 0)) := by
  simp [EventManager.register, h]

theorem eventRegister_forced (col : Collection Event) (e : Event) :
    EventManager.register col e true = (Collection.set col e.identifier e, none) := by
  simp [EventManager.register]

/-! ## Claim theorems -/

/-- C4: in both the Action and the Event registry, after `register r` succeeds
(here: from a state where the composite key is free), `get` under the key
returns `r`; a second `register` under the same key with `force = false` fails
with the identifier-already-exists error of that variant and leaves the store
unchanged; with `force = true` it overwrites. -/
theorem register_get_collision_policy
    (colA : Collection Action) (a a₂ : Action)
    (hA : ActionManager.has colA a.type a.identifier = false)
    (hkA : ActionManager.key a₂.type a₂.identifier = ActionManager.key a.type a.identifier)
    (colE : Collection Event) (e e₂ : Event)
    (hE : EventManager.has colE e.identifier = false)
    (hkE : e₂.identifier = e.identifier) :
    ((ActionManager.register colA a false).2 = none ∧
     ActionManager.get (ActionManager.register colA a false).1 a.type a.identifier = some a ∧
     (ActionManager.register (ActionManager.register colA a false).1 a₂ false).1 =
       (ActionManager.register colA a false).1 ∧
     (ActionManager.register (ActionManager.register colA a false).1 a₂ false).2 =
       some ("Action with identifier " ++ ActionManager.key a₂.type a₂.identifier ++
         " already exists.") ∧
     (ActionManager.register (ActionManager.register colA a false).1 a₂ true).2 = none ∧
     ActionManager.get
       (ActionManager.register (ActionManager.register colA a false).1 a₂ true).1
       a₂.type a₂.identifier = some a₂) ∧
    ((EventManager.register colE e false).2 = none ∧
     EventManager.get (EventManager.register colE e false).1 e.identifier = some e ∧
     (EventManager.register (EventManager.register colE e false).1 e₂ false).1 =
       (EventManager.register colE e false).1 ∧
     ((EventManager.register (EventManager.register colE e false).1 e₂ false).2).map
       (fun err => err.code) = some "EVENT_IDENTIFIER_ALREADY_EXISTS" ∧
     (EventManager.register (EventManager.register colE e false).1 e₂ true).2 = none ∧
     EventManager.get
       (EventManager.register (EventManager.register colE e false).1 e₂ true).1
       e₂.identifier = some e₂) := by
  constructor
  · have hA' : Collection.has colA (ActionManager.key a.type a.identifier) = false := hA
    have hreg := actionRegister_free colA a false hA'
    have hhas : Collection.has (ActionManager.register colA a false).1
        (ActionManager.key a₂.type a₂.identifier) = true := by
      rw [hreg, hkA]
      exact Collection.has_set_self _ _ _
    have hreg2 := actionRegister_clash
      (ActionManager.register colA a false).1 a₂ hhas
    have hreg3 := actionRegister_forced
      (ActionManager.register colA a false).1 a₂
    refine ⟨by rw [hreg], ?_, by rw [hreg2], by rw [hreg2], by rw [hreg3], ?_⟩
    · rw [hreg]
      exact Collection.get_set_self _ _ _
    · rw [hreg3]
      exact Collection.get_set_self _ _ _
  · have hE' : Collection.has colE e.identifier = false := hE
    have hreg := eventRegister_free colE e false hE'
    have hhas : Collection.has (EventManager.register colE e false).1 e₂.identifier = true := by
      rw [hreg, hkE]
      exact Collection.has_set_self _ _ _
    have hreg2 := eventRegister_clash (EventManager.register colE e false).1 e₂ hhas
    have hreg3 := eventRegister_forced (EventManager.register colE e false).1 e₂
    refine ⟨by rw [hreg], ?_, by rw [hreg2], by rw [hreg2]; rfl, by rw [hreg3], ?_⟩
    · rw [hreg]
      exact Collection.get_set_self _ _ _
    · rw [hreg3]
      exact Collection.get_set_self _ _ _

/-- C4 witness: the hypotheses hold and the theorem applies at a concrete
fresh registry state. -/
theorem register_get_collision_policy_witness :
    (ActionManager.has Collection.empty 0 "ping" = false ∧
      EventManager.has Collection.empty "ready_handler" = false) ∧
    ((ActionManager.register Collection.empty
        (⟨"ping", 0, none, none, some CallbackBehavior.retOk⟩ : Action) false).2 = none ∧
      (EventManager.register Collection.empty
        (⟨"ready_handler", "ready", none, some CallbackBehavior.retOk⟩ : Event) false).2 = none) :=
  ⟨⟨by decide, by decide⟩,
    (register_get_collision_policy Collection.empty
      ⟨"ping", 0, none, none, some CallbackBehavior.retOk⟩
      ⟨"ping", 0, some true, none, none⟩ (by decide) rfl
      Collection.empty
      ⟨"ready_handler", "ready", none, some CallbackBehavior.retOk⟩
      ⟨"ready_handler", "ready", some true, none⟩ (by decide) rfl).1.1,
    (register_get_collision_policy Collection.empty
      ⟨"ping", 0, none, none, some CallbackBehavior.retOk⟩
      ⟨"ping", 0, some true, none, none⟩ (by decide) rfl
      Collection.empty
      ⟨"ready_handler", "ready", none, some CallbackBehavior.retOk⟩
      ⟨"ready_handler", "ready", some true, none⟩ (by decide) rfl).2.1⟩

/-- C8: the category-to-prefix map is total with sentinel value "unknown" on
every unrecognized category (the numeric codes outside 0–11), and two records
sharing an identifier across distinct recognized categories register without
collision under `force = false` and are retrieved independently. -/
theorem actionKey_category_segregation :
    (∀ t : Nat, 12 ≤ t → ActionManager.getTypePrefix t = "unknown") ∧
    (∀ (t₁ t₂ : Nat) (id : String) (a₁ a₂ : Action),
      t₁ < 12 → t₂ < 12 → t₁ ≠ t₂ →
      a₁.type = t₁ → a₁.identifier = id → a₂.type = t₂ → a₂.identifier = id →
      (ActionManager.register Collection.empty a₁ false).2 = none ∧
      (ActionManager.register
        (ActionManager.register Collection.empty a₁ false).1 a₂ false).2 = none ∧
      ActionManager.get
        (ActionManager.register
          (ActionManager.register Collection.empty a₁ false).1 a₂ false).1
        t₁ id = some a₁ ∧
      ActionManager.get
        (ActionManager.register
          (ActionManager.register Collection.empty a₁ false).1 a₂ false).1
        t₂ id = some a₂) := by
  constructor
  · intro t ht
    have h0 : ¬ t = ActionType.ChatInput := by simp [ActionType.ChatInput]; omega
    have h1 : ¬ t = ActionType.MessageContext := by simp [ActionType.MessageContext]; omega
    have h2 : ¬ t = ActionType.UserContext := by simp [ActionType.UserContext]; omega
    have h3 : ¬ t = ActionType.StringSelectMenu := by simp [ActionType.StringSelectMenu]; omega
    have h4 : ¬ t = ActionType.UserSelectMenu := by simp [ActionType.UserSelectMenu]; omega
    have h5 : ¬ t = ActionType.RoleSelectMenu := by simp [ActionType.RoleSelectMenu]; omega
    have h6 : ¬ t = ActionType.MentionableSelectMenu := by
      simp [ActionType.MentionableSelectMenu]; omega
    have h7 : ¬ t = ActionType.ChannelSelectMenu := by simp [ActionType.ChannelSelectMenu]; omega
    have h8 : ¬ t = ActionType.SelectMenu := by simp [ActionType.SelectMenu]; omega
    have h9 : ¬ t = ActionType.Button := by simp [ActionType.Button]; omega
    have h10 : ¬ t = ActionType.Autocomplete := by simp [ActionType.Autocomplete]; omega
    have h11 : ¬ t = ActionType.ModalSubmit := by simp [ActionType.ModalSubmit]; omega
    simp [ ActionManager.getTypePrefix, h0, h1, h2, h3, h4, h5, h6, h7, h8, h9, h10, h11]
  · intro t₁ t₂ id a₁ a₂ h₁ h₂ hne ha₁t ha₁i ha₂t ha₂i
    have hkne : ActionManager.key t₁ id ≠ ActionManager.key t₂ id :=
      ActionManager.key_injOn t₁ t₂ id h₁ h₂ hne
    have hk₁ : ActionManager.key a₁.type a₁.identifier = ActionManager.key t₁ id := by
      rw [ha₁t, ha₁i]
    have hk₂ : ActionManager.key a₂.type a₂.identifier = ActionManager.key t₂ id := by
      rw [ha₂t, ha₂i]
    have hhas1 : Collection.has (Collection.empty : Collection Action)
        (ActionManager.key a₁.type a₁.identifier) = false := by rfl
    have hreg1 := actionRegister_free Collection.empty a₁ false hhas1
    have hget2 : Collection.get (ActionManager.register Collection.empty a₁ false).1
        (ActionManager.key a₂.type a₂.identifier) = none := by
      rw [hreg1, hk₂]
      rw [Collection.get_set_other _ _ _ _ (by rw [hk₁]; exact hkne.symm)]
      rfl
    have hhas2 : Collection.has (ActionManager.register Collection.empty a₁ false).1
        (ActionManager.key a₂.type a₂.identifier) = false := by
      simp [Collection.has, hget2]
    have hreg2 := actionRegister_free
      (ActionManager.register Collection.empty a₁ false).1 a₂ false hhas2
    refine ⟨by rw [hreg1], by rw [hreg2], ?_, ?_⟩
    · show Collection.get _ (ActionManager.key t₁ id) = some a₁
      rw [hreg2, hk₂]
      rw [Collection.get_set_other _ _ _ _ hkne]
      rw [hreg1, hk₁]
      exact Collection.get_set_self _ _ _
    · show Collection.get _ (ActionManager.key t₂ id) = some a₂
      rw [hreg2, hk₂]
      exact Collection.get_set_self _ _ _

/-- C5: for every code of the error taxonomy and every locale, the catch
block's resolution chain (locale entry, then the code's default, then the
`UNKNOWN_ERROR` locale entry, then its default) yields a message, that message
is non-empty, and when the locale has no entry for the code the result is the
code's default entry. -/
theorem errorMessage_resolution (code locale : String)
    (hcode : (errorsKey code).isSome = true) :
    (∃ s, resolveErrorMessage code locale = some s ∧ s ≠ "") ∧
    (∀ m, messagesKey code = some m → List.lookup locale m.locales = none →
      resolveErrorMessage code locale = some m.default) := by
  have hmsg : (messagesKey code).isSome = true := messagesKey_of_errorsKey code hcode
  obtain ⟨m, hm⟩ := Option.isSome_iff_exists.mp hmsg
  have hdef : m.default ≠ "" := messagesKey_default_ne_empty code m hm
  have hres : resolveErrorMessage code locale =
      some (jsOrStr (List.lookup locale m.locales)
        (jsOrStr (some m.default)
          (jsOrStr (List.lookup locale unknownErrorMessageEntry.locales)
            unknownErrorMessageEntry.default))) := by
    unfold resolveErrorMessage
    rw [hm]
  constructor
  · exact resolveErrorMessage_covered code locale m hm
  · intro m' hm' hlook
    rw [hm] at hm'
    cases hm'
    rw [hres, hlook]
    show some (jsOrStr (some m.default) _) = _
    rw [jsOrStr_some_of_ne _ _ hdef]

/-- C5 witness: a taxonomy code resolved under a locale absent from the
table. -/
theorem errorMessage_resolution_witness :
    (errorsKey "ACTION_NOT_FOUND").isSome = true ∧
    (∃ s, resolveErrorMessage "ACTION_NOT_FOUND" "de" = some s ∧ s ≠ "") :=
  ⟨by decide, (errorMessage_resolution "ACTION_NOT_FOUND" "de" (by decide)).1⟩

/-- C9: for a code present in the taxonomy the constructed error's message is
the taxonomy default regardless of the caller-supplied message; for an absent
code the (truthy) caller message is used, severity defaults to HIGH and
loggable to true. -/
theorem customError_message_default_precedence (code : String) (m : String) :
    (∀ p, errorsKey code = some p →
      ∀ r, (CustomError.make code (some m) r).message = p.message.default) ∧
    (errorsKey code = none → ∀ r,
      (m ≠ "" → (CustomError.make code (some m) r).message = m) ∧
      (CustomError.make code (some m) r).severity = CustomErrorSeverity.HIGH ∧
      (CustomError.make code (some m) r).loggable = true) := by
  constructor
  · intro p hp r
    have hdef : p.message.default ≠ "" := errorsKey_default_ne_empty code p hp
    show jsOrStr ((errorsKey code).map (fun q => q.message.default))
      (jsOrStr (some m) unknownErrorPayload.message.default) = p.message.default
    rw [hp]
    exact jsOrStr_some_of_ne _ _ hdef
  · intro h r
    refine ⟨?_, ?_, ?_⟩
    · intro hm
      show jsOrStr ((errorsKey code).map (fun q => q.message.default))
        (jsOrStr (some m) unknownErrorPayload.message.default) = m
      rw [h]
      show jsOrStr (some m) unknownErrorPayload.message.default = m
      exact jsOrStr_some_of_ne _ _ hm
    · show ((errorsKey code).map (fun q => q.severity)).getD CustomErrorSeverity.HIGH =
        CustomErrorSeverity.HIGH
      rw [h]
      rfl
    · show ((errorsKey code).map (fun q => q.loggable)).getD true = true
      rw [h]
      rfl

/-- C9 witness: a present code keeps its taxonomy default against a custom
message; an absent code uses the custom message and the HIGH/loggable
defaults. -/
theorem customError_message_default_precedence_witness :
    (CustomError.make "EVENT_DISABLED" (some "boom") 0).message =
      "This event is currently disabled." ∧
    (errorsKey "SOME_UNKNOWN_CODE" = none ∧
      (CustomError.make "SOME_UNKNOWN_CODE" (some "boom") 0).message = "boom" ∧
      (CustomError.make "SOME_UNKNOWN_CODE" (some "boom") 0).severity =
        CustomErrorSeverity.HIGH ∧
      (CustomError.make "SOME_UNKNOWN_CODE" (some "boom") 0).loggable = true) :=
  ⟨(customError_message_default_precedence "EVENT_DISABLED" "boom").1
      { message := { default := "This event is currently disabled."
                     code := "EVENT_DISABLED" }
        severity := CustomErrorSeverity.MEDIUM, loggable := true } (by decide) 0,
   by decide,
   ((customError_message_default_precedence "SOME_UNKNOWN_CODE" "boom").2 (by decide) 0).1
     (by decide),
   ((customError_message_default_precedence "SOME_UNKNOWN_CODE" "boom").2 (by decide) 0).2.1,
   ((customError_message_default_precedence "SOME_UNKNOWN_CODE" "boom").2 (by decide) 0).2.2⟩

/-- C8 witness: both conjuncts applied at concrete inputs — category 12 is
unrecognized, and a chat-input action and a button action named "go" coexist. -/
theorem actionKey_category_segregation_witness :
    ActionManager.getTypePrefix 12 = "unknown" ∧
    ActionManager.get
      (ActionManager.register
        (ActionManager.register Collection.empty
          (⟨"go", 0, none, none, some CallbackBehavior.retOk⟩ : Action) false).1
        (⟨"go", 9, none, none, some CallbackBehavior.retOk⟩ : Action) false).1
      9 "go" = some ⟨"go", 9, none, none, some CallbackBehavior.retOk⟩ :=
  ⟨actionKey_category_segregation.1 12 (by decide),
   (actionKey_category_segregation.2 0 9 "go"
     ⟨"go", 0, none, none, some CallbackBehavior.retOk⟩
     ⟨"go", 9, none, none, some CallbackBehavior.retOk⟩
     (by decide) (by decide) (by decide) rfl rfl rfl rfl).2.2.2⟩

/-- C6: when the stimulus resolves to a registered action whose `disabled`
flag is truthy, dispatch fails with the `ACTION_DISABLED` error and the
callback is not invoked (the disabled guard precedes both the
callback-absent guard and the invocation step). -/
theorem dispatch_disabled_never_invokes
    (col : Collection Action) (i : Interaction) (t : Nat) (s : String) (a : Action)
    (ht : getActionTypeFromInteraction i = some t)
    (hs : getIdentifierFromInteraction i = some s)
    (hne : s ≠ "")
    (ha : ActionManager.get col t s = some a)
    (hd : a.disabled = some true) :
    dispatchCore col i =
      (Except.error (Thrown.customErr (CustomError.make "ACTION_DISABLED"
        (some ("Action " ++ s ++ " of type " ++ toString t ++ " is disabled")) 0)),
       false) := by
  simp [dispatchCore, ht, hs, jsStrFalsy, hne, dispatchResolve, ha, hd]

/-- C6 witness: a disabled button action registered under its key is resolved
by a button stimulus and dispatch fails without invoking the callback. -/
theorem dispatch_disabled_never_invokes_witness :
    (getActionTypeFromInteraction { isButton := true, customId := "b1" } = some 9 ∧
      ActionManager.get
        (Collection.set Collection.empty "button-b1"
          ⟨"b1", 9, some true, none, some CallbackBehavior.retOk⟩) 9 "b1" =
        some ⟨"b1", 9, some true, none, some CallbackBehavior.retOk⟩) ∧
    dispatchCore
      (Collection.set Collection.empty "button-b1"
        ⟨"b1", 9, some true, none, some CallbackBehavior.retOk⟩)
      { isButton := true, customId := "b1" } =
      (Except.error (Thrown.customErr (CustomError.make "ACTION_DISABLED"
        (some ("Action " ++ "b1" ++ " of type " ++ toString 9 ++ " is disabled")) 0)),
       false) :=
  ⟨⟨rfl, rfl⟩,
   dispatch_disabled_never_invokes
     (Collection.set Collection.empty "button-b1"
       ⟨"b1", 9, some true, none, some CallbackBehavior.retOk⟩)
     { isButton := true, customId := "b1" } 9 "b1"
     ⟨"b1", 9, some true, none, some CallbackBehavior.retOk⟩
     rfl rfl (by decide) rfl rfl⟩

/-- C7: a stimulus matching none of the known shape predicates makes dispatch
fail with the `INTERACTION_TYPE_NOT_SUPPORTED` error, which the catch block
translates to a localized reply (or drops it when the stimulus is not
repliable); the handler never reaches the uncaught-crash outcome. -/
theorem dispatch_unsupported_type_replies
    (col : Collection Action) (i : Interaction)
    (h : getActionTypeFromInteraction i = none) :
    (interactionHandler col i).1 ≠ Outcome.crashed ∧
    ∃ content,
      resolveErrorMessage "INTERACTION_TYPE_NOT_SUPPORTED" i.locale = some content ∧
      (interactionHandler col i).1 =
        (if i.isRepliable then Outcome.replied content else Outcome.dropped) := by
  have hcore : dispatchCore col i =
      (Except.error (Thrown.customErr (CustomError.make "INTERACTION_TYPE_NOT_SUPPORTED"
        (some "Interaction type is not supported") 0)), false) := by
    simp [dispatchCore, h]
  obtain ⟨content, hcontent, hcne⟩ :=
    resolveErrorMessage_covered "INTERACTION_TYPE_NOT_SUPPORTED" i.locale
      { default := "The interaction type is not supported."
        locales := [("fr", "Le type d\x27interaction n\x27est pas pris en charge.")] } rfl
  have hhandler : (interactionHandler col i).1 =
      (if i.isRepliable then Outcome.replied content else Outcome.dropped) := by
    simp only [interactionHandler, hcore]
    show (match resolveErrorMessage "INTERACTION_TYPE_NOT_SUPPORTED" i.locale with
      | none => (Outcome.crashed, false)
      | some content =>
        ((if i.isRepliable then Outcome.replied content else Outcome.dropped), false)).1 = _
    rw [hcontent]
  refine ⟨?_, content, hcontent, hhandler⟩
  rw [hhandler]
  by_cases hrep : i.isRepliable <;> simp [hrep]

/-- C7 witness: a stimulus with every shape predicate false yields the
localized unsupported-type reply. -/
theorem dispatch_unsupported_type_replies_witness :
    getActionTypeFromInteraction
      ({ locale := "fr", isRepliable := true } : Interaction) = none ∧
    (interactionHandler Collection.empty
      ({ locale := "fr", isRepliable := true } : Interaction)).1 ≠ Outcome.crashed :=
  ⟨rfl,
   (dispatch_unsupported_type_replies Collection.empty
     { locale := "fr", isRepliable := true } rfl).1⟩

/-- C10: whenever shape classification succeeds, identifier extraction also
succeeds (both probe the same predicates in the same order and every matched
shape carries a `commandName` or `customId` string), so the step-2
`ACTION_NOT_FOUND` branch is taken exactly when that string is empty. -/
theorem classify_extract_consistency
    (col : Collection Action) (i : Interaction) (t : Nat)
    (h : getActionTypeFromInteraction i = some t) :
    ∃ s, getIdentifierFromInteraction i = some s ∧
      (s ≠ "" → dispatchCore col i = dispatchResolve col t s) ∧
      (s = "" → dispatchCore col i =
        (Except.error (Thrown.customErr (CustomError.make "ACTION_NOT_FOUND"
          (some ("No identifier found for interaction type " ++ toString t)) 0)),
         false)) := by
  have hides : ∃ s, getIdentifierFromInteraction i = some s := by
    by_cases c1 : i.isChatInputCommand
    · exact ⟨i.commandName, by simp [getIdentifierFromInteraction, c1]⟩
    · by_cases c2 : i.isMessageContextMenuCommand
      · exact ⟨i.commandName, by simp [getIdentifierFromInteraction, c1, c2]⟩
      · by_cases c3 : i.isUserContextMenuCommand
        · exact ⟨i.commandName, by simp [getIdentifierFromInteraction, c1, c2, c3]⟩
        · by_cases c4 : i.isButton
          · exact ⟨i.customId, by simp [getIdentifierFromInteraction, c1, c2, c3, c4]⟩
          · by_cases c5 : i.isStringSelectMenu
            · exact ⟨i.customId, by simp [getIdentifierFromInteraction, c1, c2, c3, c4, c5]⟩
            · by_cases c6 : i.isUserSelectMenu
              · exact ⟨i.customId,
                  by simp [getIdentifierFromInteraction, c1, c2, c3, c4, c5, c6]⟩
              · by_cases c7 : i.isRoleSelectMenu
                · exact ⟨i.customId,
                    by simp [getIdentifierFromInteraction, c1, c2, c3, c4, c5, c6, c7]⟩
                · by_cases c8 : i.isMentionableSelectMenu
                  · exact ⟨i.customId,
                      by simp [getIdentifierFromInteraction, c1, c2, c3, c4, c5, c6, c7, c8]⟩
                  · by_cases c9 : i.isChannelSelectMenu
                    · exact ⟨i.customId,
                        by simp [getIdentifierFromInteraction,
                          c1, c2, c3, c4, c5, c6, c7, c8, c9]⟩
                    · by_cases c10 : i.isModalSubmit
                      · exact ⟨i.customId,
                          by simp [getIdentifierFromInteraction,
                            c1, c2, c3, c4, c5, c6, c7, c8, c9, c10]⟩
                      · by_cases c11 : i.isAutocomplete
                        · exact ⟨i.commandName,
                            by simp [getIdentifierFromInteraction,
                              c1, c2, c3, c4, c5, c6, c7, c8, c9, c10, c11]⟩
                        · exact absurd h
                            (by simp [getActionTypeFromInteraction,
                              c1, c2, c3, c4, c5, c6, c7, c8, c9, c10, c11])
  obtain ⟨s, hs⟩ := hides
  refine ⟨s, hs, ?_, ?_⟩
  · intro hne
    simp [dispatchCore, h, hs, jsStrFalsy, hne]
  · intro heq
    subst heq
    simp [dispatchCore, h, hs, jsStrFalsy]

/-- C10 witness: a modal-submit stimulus whose `customId` is the empty string
classifies to category 11 and takes the step-2 failure branch. -/
theorem classify_extract_consistency_witness :
    getActionTypeFromInteraction ({ isModalSubmit := true } : Interaction) = some 11 ∧
    dispatchCore Collection.empty ({ isModalSubmit := true } : Interaction) =
      (Except.error (Thrown.customErr (CustomError.make "ACTION_NOT_FOUND"
        (some ("No identifier found for interaction type " ++ toString 11)) 0)),
       false) := by
  obtain ⟨s, hs, h1, h2⟩ :=
    classify_extract_consistency Collection.empty { isModalSubmit := true } 11 rfl
  rw [show getIdentifierFromInteraction ({ isModalSubmit := true } : Interaction) =
    some "" from rfl] at hs
  cases hs
  exact ⟨rfl, h2 rfl⟩

/-- C1: evaluation at a concrete tree whose single invalid file sits in a
nested subdirectory. `ActionManager.loadFolder` returns an empty failure list
— the recursive call's failures are discarded — although the same traversal
over a top-level invalid file does report it, and `EventManager.loadFolder`
on the same tree shape reports exactly the one nested failure. -/
theorem loadFolder_nested_failure_reporting :
    (actionLoadFolder Collection.empty "actions"
        [FsEntry.dir "sub" [FsEntry.file "bad.txt" ".txt" none]] true false).2 = [] ∧
    ((actionLoadFolder Collection.empty "actions"
        [FsEntry.file "bad.txt" ".txt" none] true false).2).map
      (fun fl => fl.path) = ["actions/bad.txt"] ∧
    ((eventLoadFolder Collection.empty "events"
        [FsEntry.dir "sub" [FsEntry.file "bad.txt" ".txt" none]] true false).2).map
      (fun fl => fl.path) = ["events/sub/bad.txt"] := by
  refine ⟨?_, ?_, ?_⟩ <;>
    simp [actionLoadFolder, eventLoadFolder, actionLoadFile, eventLoadFile]

/-- C2: evaluation at a record whose `disabled` flag is true.
`ActionManager.load` — probing the nonexistent `enabled` property — raises no
error and registers the disabled action, while `EventManager.load` fails with
`EVENT_DISABLED` and registers nothing. -/
theorem actionLoad_registers_disabled_record :
    ((actionLoadFile Collection.empty "actions/x.ts" ".ts"
        (some ⟨"x", 0, some true, none, some CallbackBehavior.retOk⟩) false).2 = none ∧
      ActionManager.get
        (actionLoadFile Collection.empty "actions/x.ts" ".ts"
          (some ⟨"x", 0, some true, none, some CallbackBehavior.retOk⟩) false).1 0 "x" =
        some ⟨"x", 0, some true, none, some CallbackBehavior.retOk⟩) ∧
    ((eventLoadFile Collection.empty "events/x.ts" ".ts"
        (some ⟨"x", "ready", some true, some CallbackBehavior.retOk⟩) false).1 =
        Collection.empty ∧
      ((eventLoadFile Collection.empty "events/x.ts" ".ts"
        (some ⟨"x", "ready", some true, some CallbackBehavior.retOk⟩) false).2).map
        (fun e => e.code) = some "EVENT_DISABLED") := by
  decide

/-- C3 counterexample: the claim — the error's `context` is a snapshot taken
at throw time, unaffected by later `addContext` calls — fails at this concrete
input: after constructing the error from a fresh logger, one `addContext`
call changes the context the error exposes. -/
theorem error_context_snapshot_refuted :
    CustomErrorObj.contextAt
        (Logger.error (Logger.new [] []).1 "ACTION_NOT_FOUND" none)
        (Logger.addContext (Logger.new [] []).1 "phase" "late" (Logger.new [] []).2) ≠
      CustomErrorObj.contextAt
        (Logger.error (Logger.new [] []).1 "ACTION_NOT_FOUND" none)
        (Logger.new [] []).2 := by
  decide

/-- C3 amended: the error's `context` field aliases the logger's live context
object rather than snapshotting it: an `addContext` call made after the error
is constructed is visible through the error's context, while `setContext`
(which rebinds the logger to a freshly merged object) leaves the error's
context unchanged. -/
theorem error_context_aliases_logger (h : Heap) (l : LoggerSt) (code : String)
    (msg : Option String) (k v : String) (c : Ctx)
    (href : l.ctxRef < h.length) :
    CustomErrorObj.contextAt (Logger.error l code msg) (Logger.addContext l k v h) =
      Collection.set (Logger.getContext l h) k v ∧
    CustomErrorObj.contextAt (Logger.error l code msg) (Logger.setContext l c h).2 =
      Logger.getContext l h := by
  constructor
  · show Heap.read (Heap.write h l.ctxRef (Collection.set (Heap.read h l.ctxRef) k v))
      l.ctxRef = _
    rw [Heap.read_write_self _ _ _ href]
    rfl
  · show Heap.read (h ++ [spreadMerge (Heap.read h l.ctxRef) c]) l.ctxRef = _
    rw [Heap.read_append _ _ _ href]
    rfl

/-- C3 amended witness: one live logger cell in the heap; the aliasing is
observed at concrete keys. -/
theorem error_context_aliases_logger_witness :
    (LoggerSt.ctxRef ⟨0⟩ < ([[]] : Heap).length) ∧
    CustomErrorObj.contextAt (Logger.error ⟨0⟩ "ACTION_NOT_FOUND" none)
      (Logger.addContext ⟨0⟩ "phase" "late" [[]]) =
      Collection.set (Logger.getContext ⟨0⟩ [[]]) "phase" "late" :=
  ⟨by decide,
   (error_context_aliases_logger [[]] ⟨0⟩ "ACTION_NOT_FOUND" none "phase" "late" []
     (by decide)).1⟩

end Djs
